import Mathlib

/-!
Shallow embedding of `src/facebook_bot.py` (posting orchestration and
deduplication engine of the Facebook_moonlight_page repository).

Modelling conventions:
* The JSON post log (`post_log.json`) is a JSON object mapping date strings
  to lists.  `load_log`/`save_log` are pure file round-trips, and every
  helper reloads the file, so within one process the log threads through the
  functions as an explicit value.  We model it as a total function
  `Log : String → List LogItem` with default `[]`; this is observationally
  equivalent to the Python dict because every read in the source uses
  `data.get(today, [])` or guards membership with `today in data`.
* A Python list may hold values of any type.  `mark_posted` appends dict
  records, while `already_posted` tests `post_hash in data[today]`, i.e.
  membership of a *string* among the stored items.  To keep both faithfully,
  a log item is either a bare string or a record (`LogItem`), and Python's
  `==` across the two shapes is `False`, exactly as `DecidableEq` gives here.
* `hashlib.sha256(message.encode("utf-8")).hexdigest()` is modelled by an
  explicit function parameter `sha : String → String`: a fixed deterministic
  function of the message, which is all the engine's logic depends on.
* The remote calls (`requests.post` to Groq / Replicate / the Graph API) are
  oracles: `gen post_num attempt` is the text returned by the Groq call (or
  `none` when the call raised and `generate_text` returned `None`),
  `img prompt` the image URL produced by `generate_image` (or `none` on
  failure/timeout), `pub text image post_num` the Facebook post result of
  `post_to_facebook` (`none` when the request failed or carried no `id`),
  and `ts post_num` the `datetime.now().isoformat()` string taken when
  `mark_posted` runs for that slot.  `time.sleep` has no modelled effect.
-/

namespace FacebookBot

/-- `DAILY_POST_LIMIT = 3  # Number of posts per day`. -/
def DAILY_POST_LIMIT : Nat := 3

/-- One dict appended by `mark_posted`: keys `hash`, `post_number`,
`timestamp`, `preview`. -/
structure PostEntry where
  hash : String
  post_number : Nat
  timestamp : String
  preview : String
deriving DecidableEq, Repr

/-- An element of a per-date list in the JSON log: Python lists are
heterogeneous, so an item is either a bare string or a record dict.
`mark_posted` only ever appends records. -/
inductive LogItem where
  | str (s : String)
  | dict (e : PostEntry)
deriving DecidableEq, Repr

/-- The post log: date string ↦ list of items (missing key ↦ `[]`). -/
abbrev Log := String → List LogItem

def emptyLog : Log := fun _ => []

/-- Python truthiness of an optional string (`None` and `""` are falsy),
used by `if candidate_text and ...`, `if not text`, `if not image_url`,
`if image_url:`. -/
def pythonTruthy : Option String → Bool
  | none => false
  | some s => s != ""

/-- `message[:100] + "..." if len(message) > 100 else message`
(the `preview` field written by `mark_posted`). -/
def preview_of (message : String) : String :=
  if message.length > 100 then message.take 100 ++ "..." else message

/-- `already_posted(message)`: hash the message and test
`today in data and post_hash in data[today]` — string membership among the
stored items. -/
def already_posted (sha : String → String) (today : String) (log : Log)
    (message : String) : Bool :=
  (log today).any (fun item => item == LogItem.str (sha message))

/-- The record dict built inside `mark_posted`. -/
def mk_entry (sha : String → String) (ts message : String)
    (post_number : Nat) : PostEntry :=
  { hash := sha message
    post_number := post_number
    timestamp := ts
    preview := preview_of message }

/-- `mark_posted(message, post_number)`: append one record under today's
key (creating the key if absent) and save. -/
def mark_posted (sha : String → String) (today ts message : String)
    (post_number : Nat) (log : Log) : Log :=
  fun d =>
    if d = today then
      log today ++ [LogItem.dict (mk_entry sha ts message post_number)]
    else log d

/-- `count_posts_today()` = `len(data.get(today, []))`. -/
def count_posts_today (today : String) (log : Log) : Nat :=
  (log today).length

/-- `get_post_themes()`: the fixed catalog of eight theme strings. -/
def get_post_themes : List String :=
  ["independence movements and freedom fighters",
   "colonial resistance and liberation struggles",
   "post-independence achievements and challenges",
   "cultural preservation during colonial period",
   "economic developments and trade history",
   "educational and intellectual movements",
   "women's roles in African history",
   "Pan-African movements and unity efforts"]

/-- `selected_theme = themes[(post_number - 1) % len(themes)]` inside
`generate_text` (Python `%` on a possibly negative left operand is `Int.emod`
with a positive modulus). -/
def selected_theme (post_number : Nat) : String :=
  get_post_themes.getD (((post_number : Int) - 1) % 8).toNat ""

/-- The `for attempt in range(5)` retry loop of `create_daily_posts`:
`candidate_text = generate_text(post_num)`; accept when
`candidate_text and not already_posted(candidate_text)`, otherwise pause and
retry.  Returns the accepted text (or `none`) and the number of
`generate_text` calls made; `attempt` is the next attempt index and the
second `Nat` argument the remaining fuel (initially 5). -/
def content_retry_loop (sha : String → String) (gen : Nat → Option String)
    (today : String) (log : Log) : Nat → Nat → Option String × Nat
  | _, 0 => (none, 0)
  | attempt, fuel + 1 =>
    let candidate := gen attempt
    if pythonTruthy candidate &&
        !(already_posted sha today log (candidate.getD "")) then
      (candidate, 1)
    else
      let r := content_retry_loop sha gen today log (attempt + 1) fuel
      (r.1, r.2 + 1)

/-- Outcome of one iteration of the `for post_num in ...` loop: the log
afterwards, how many `generate_text` / `generate_image` /
`post_to_facebook` calls the slot made, and the record appended (if any). -/
structure SlotResult where
  log : Log
  genCalls : Nat
  imgCalls : Nat
  pubCalls : Nat
  posted : Option PostEntry
deriving Nonempty

/-- One iteration of the posting loop body of `create_daily_posts`: retry
content generation, `generate_image(text[:120])` (best-effort),
`post_to_facebook(text, image_url, post_num)`, and `mark_posted` on
success.  `post_to_facebook` attaches the image only `if image_url:`
(truthy), which the `pub` oracle receives normalised to `none` otherwise. -/
def process_post_slot (sha : String → String)
    (gen : Nat → Nat → Option String) (img : String → Option String)
    (pub : String → Option String → Nat → Option String) (ts : Nat → String)
    (today : String) (log : Log) (post_num : Nat) : SlotResult :=
  let r := content_retry_loop sha (gen post_num) today log 0 5
  match r.1 with
  | none => ⟨log, r.2, 0, 0, none⟩
  | some text =>
    let image_url := img (text.take 120)
    let fb_image := if pythonTruthy image_url then image_url else none
    match pub text fb_image post_num with
    | some _pid =>
      ⟨mark_posted sha today (ts post_num) text post_num log, r.2, 1, 1,
        some (mk_entry sha (ts post_num) text post_num)⟩
    | none => ⟨log, r.2, 1, 1, none⟩

/-- Aggregate outcome of one `create_daily_posts()` invocation. -/
structure RunResult where
  log : Log
  genCalls : Nat
  imgCalls : Nat
  pubCalls : Nat
  successful_posts : Nat
deriving Nonempty

/-- `remaining_posts = DAILY_POST_LIMIT - posts_today` (a plain Python int,
not floored). -/
def remaining_posts (today : String) (log : Log) : Int :=
  (DAILY_POST_LIMIT : Int) - (count_posts_today today log : Int)

/-- The slot loop `for post_num in range(posts_today + 1,
DAILY_POST_LIMIT + 1)` over an explicit slot list, threading the log and
accumulating call counts and `successful_posts`. -/
def run_slots (sha : String → String) (gen : Nat → Nat → Option String)
    (img : String → Option String)
    (pub : String → Option String → Nat → Option String) (ts : Nat → String)
    (today : String) : List Nat → Log → RunResult
  | [], log => ⟨log, 0, 0, 0, 0⟩
  | post_num :: rest, log =>
    let r := process_post_slot sha gen img pub ts today log post_num
    let acc := run_slots sha gen img pub ts today rest r.log
    ⟨acc.log, r.genCalls + acc.genCalls, r.imgCalls + acc.imgCalls,
      r.pubCalls + acc.pubCalls,
      (if r.posted.isSome then 1 else 0) + acc.successful_posts⟩

/-- `create_daily_posts()`: read `count_posts_today()`, return immediately
when `remaining_posts <= 0`, otherwise run the slot loop over
`range(posts_today + 1, DAILY_POST_LIMIT + 1)`. -/
def create_daily_posts (sha : String → String)
    (gen : Nat → Nat → Option String) (img : String → Option String)
    (pub : String → Option String → Nat → Option String) (ts : Nat → String)
    (today : String) (log : Log) : RunResult :=
  let posts_today := count_posts_today today log
  if remaining_posts today log ≤ 0 then ⟨log, 0, 0, 0, 0⟩
  else
    run_slots sha gen img pub ts today
      (List.range' (posts_today + 1) (DAILY_POST_LIMIT - posts_today)) log

/-- The external collaborators and clock of one `create_daily_posts`
invocation (one pipeline cycle). -/
structure CycleConfig where
  gen : Nat → Nat → Option String
  img : String → Option String
  pub : String → Option String → Nat → Option String
  ts : Nat → String
  today : String

/-- A sequence of pipeline cycles (successive script invocations, possibly
on different days), each threading the log forward. -/
def run_cycles (sha : String → String) (cs : List CycleConfig)
    (log : Log) : Log :=
  cs.foldl
    (fun l c => (create_daily_posts sha c.gen c.img c.pub c.ts c.today l).log)
    log

/-- The theme `generate_text` deterministically selects for the slot that
produced a record: records store no topic field, but `post_number`
determines the theme, so this is the topic associated with a record. -/
def topic_of (e : PostEntry) : String :=
  selected_theme e.post_number

/-! ### Concrete fixtures (instantiations of the oracles for evaluation) -/

/-- A concrete stand-in for the deterministic hash function. -/
def testSha : String → String := fun s => "#" ++ s

/-- Generator that always returns the same text. -/
def testGenDup : Nat → Nat → Option String := fun _ _ => some "dup"

/-- Generator whose call always fails (`generate_text` returns `None`). -/
def testGenNone : Nat → Nat → Option String := fun _ _ => none

/-- Image generation that always fails. -/
def testImgNone : String → Option String := fun _ => none

/-- Publisher that always succeeds with post id `FBID123`. -/
def testPubOK : String → Option String → Nat → Option String :=
  fun _ _ _ => some "FBID123"

/-- Publisher whose response never carries an `id`. -/
def testPubFail : String → Option String → Nat → Option String :=
  fun _ _ _ => none

def testTsA : Nat → String := fun _ => "A"

def testTsB : Nat → String := fun _ => "B"

/-- A 101-character message (longer than the 100-character preview cut). -/
def testLongMsg : String := String.mk (List.replicate 101 'a')

/-- Generator that always returns the 101-character message. -/
def testGenLong : Nat → Nat → Option String := fun _ _ => some testLongMsg

/-- A log holding three records under 2026-10-12. -/
def testLog3 : Log := fun d =>
  if d = "2026-10-12" then
    List.replicate 3 (LogItem.dict ⟨"h", 1, "T", "m"⟩)
  else []

/-- A log holding four records under 2026-10-12 (more than the limit). -/
def testLog4 : Log := fun d =>
  if d = "2026-10-12" then
    List.replicate 4 (LogItem.dict ⟨"h", 1, "T", "m"⟩)
  else []

/-! ### Helper lemmas -/

lemma retry_loop_calls_le (sha : String → String) (gen : Nat → Option String)
    (today : String) (log : Log) :
    ∀ (fuel attempt : Nat),
      (content_retry_loop sha gen today log attempt fuel).2 ≤ fuel := by
  intro fuel
  induction fuel with
  | zero => intro attempt; simp [content_retry_loop]
  | succ n ih =>
    intro attempt
    simp only [content_retry_loop]
    split
    · simp
    · simpa using ih (attempt + 1)

lemma retry_loop_all_rejected (sha : String → String)
    (gen : Nat → Option String) (today : String) (log : Log) :
    ∀ (fuel attempt : Nat),
      (∀ a, attempt ≤ a → a < attempt + fuel →
        pythonTruthy (gen a) = false ∨
          already_posted sha today log ((gen a).getD "") = true) →
      content_retry_loop sha gen today log attempt fuel = (none, fuel) := by
  intro fuel
  induction fuel with
  | zero => intro attempt _; simp [content_retry_loop]
  | succ n ih =>
    intro attempt h
    have h0 := h attempt le_rfl (by omega)
    have hcond : (pythonTruthy (gen attempt) &&
        !(already_posted sha today log ((gen attempt).getD ""))) = false := by
      rcases h0 with h0 | h0 <;> simp [h0]
    have hrest := ih (attempt + 1) (fun a ha1 ha2 => h a (by omega) (by omega))
    simp [content_retry_loop, hcond, hrest]

lemma process_post_slot_genCalls_le (sha : String → String)
    (gen : Nat → Nat → Option String) (img : String → Option String)
    (pub : String → Option String → Nat → Option String) (ts : Nat → String)
    (today : String) (log : Log) (post_num : Nat) :
    (process_post_slot sha gen img pub ts today log post_num).genCalls ≤ 5 := by
  have h := retry_loop_calls_le sha (gen post_num) today log 5 0
  simp only [process_post_slot]
  split
  · exact h
  · split <;> exact h

lemma process_post_slot_log_spec (sha : String → String)
    (gen : Nat → Nat → Option String) (img : String → Option String)
    (pub : String → Option String → Nat → Option String) (ts : Nat → String)
    (today : String) (log : Log) (post_num : Nat) (d : String) :
    (process_post_slot sha gen img pub ts today log post_num).log d = log d ∨
      (d = today ∧ ∃ e,
        (process_post_slot sha gen img pub ts today log post_num).log d =
          log d ++ [LogItem.dict e]) := by
  simp only [process_post_slot]
  split
  · left; rfl
  · split
    · rename_i r1 text pr pid hpub hloop
      by_cases hd : d = today
      · subst hd
        right
        exact ⟨rfl, mk_entry sha (ts post_num) text post_num,
          by simp [mark_posted]⟩
      · left; simp [mark_posted, hd]
    · left; rfl

lemma process_post_slot_frame (sha : String → String)
    (gen : Nat → Nat → Option String) (img : String → Option String)
    (pub : String → Option String → Nat → Option String) (ts : Nat → String)
    (today : String) (log : Log) (post_num : Nat) (d : String)
    (hd : d ≠ today) :
    (process_post_slot sha gen img pub ts today log post_num).log d = log d := by
  rcases process_post_slot_log_spec sha gen img pub ts today log post_num d with
    h | ⟨h, _⟩
  · exact h
  · exact absurd h hd

lemma process_post_slot_today_len (sha : String → String)
    (gen : Nat → Nat → Option String) (img : String → Option String)
    (pub : String → Option String → Nat → Option String) (ts : Nat → String)
    (today : String) (log : Log) (post_num : Nat) :
    ((process_post_slot sha gen img pub ts today log post_num).log today).length
      ≤ (log today).length + 1 := by
  rcases process_post_slot_log_spec sha gen img pub ts today log post_num today
    with h | ⟨_, e, h⟩
  · rw [h]; omega
  · rw [h]; simp

lemma process_post_slot_append (sha : String → String)
    (gen : Nat → Nat → Option String) (img : String → Option String)
    (pub : String → Option String → Nat → Option String) (ts : Nat → String)
    (today : String) (log : Log) (post_num : Nat) (d : String) :
    ∃ tail, (process_post_slot sha gen img pub ts today log post_num).log d =
      log d ++ tail := by
  rcases process_post_slot_log_spec sha gen img pub ts today log post_num d
    with h | ⟨_, e, h⟩
  · exact ⟨[], by simp [h]⟩
  · exact ⟨[LogItem.dict e], h⟩

lemma run_slots_frame (sha : String → String)
    (gen : Nat → Nat → Option String) (img : String → Option String)
    (pub : String → Option String → Nat → Option String) (ts : Nat → String)
    (today : String) :
    ∀ (slots : List Nat) (log : Log) (d : String), d ≠ today →
      (run_slots sha gen img pub ts today slots log).log d = log d := by
  intro slots
  induction slots with
  | nil => intro log d _; rfl
  | cons n rest ih =>
    intro log d hd
    simp only [run_slots]
    rw [ih _ d hd]
    exact process_post_slot_frame sha gen img pub ts today log n d hd

lemma run_slots_today_len (sha : String → String)
    (gen : Nat → Nat → Option String) (img : String → Option String)
    (pub : String → Option String → Nat → Option String) (ts : Nat → String)
    (today : String) :
    ∀ (slots : List Nat) (log : Log),
      ((run_slots sha gen img pub ts today slots log).log today).length ≤
        (log today).length + slots.length := by
  intro slots
  induction slots with
  | nil => intro log; simp [run_slots]
  | cons n rest ih =>
    intro log
    simp only [run_slots]
    have h1 := process_post_slot_today_len sha gen img pub ts today log n
    have h2 := ih (process_post_slot sha gen img pub ts today log n).log
    simp only [List.length_cons]
    omega

lemma run_slots_append (sha : String → String)
    (gen : Nat → Nat → Option String) (img : String → Option String)
    (pub : String → Option String → Nat → Option String) (ts : Nat → String)
    (today : String) :
    ∀ (slots : List Nat) (log : Log) (d : String),
      ∃ tail, (run_slots sha gen img pub ts today slots log).log d =
        log d ++ tail := by
  intro slots
  induction slots with
  | nil => intro log d; exact ⟨[], by simp [run_slots]⟩
  | cons n rest ih =>
    intro log d
    obtain ⟨t1, h1⟩ := process_post_slot_append sha gen img pub ts today log n d
    obtain ⟨t2, h2⟩ := ih (process_post_slot sha gen img pub ts today log n).log d
    refine ⟨t1 ++ t2, ?_⟩
    simp only [run_slots]
    rw [h2, h1, List.append_assoc]

lemma create_daily_posts_frame (sha : String → String)
    (gen : Nat → Nat → Option String) (img : String → Option String)
    (pub : String → Option String → Nat → Option String) (ts : Nat → String)
    (today : String) (log : Log) (d : String) (hd : d ≠ today) :
    (create_daily_posts sha gen img pub ts today log).log d = log d := by
  simp only [create_daily_posts]
  split
  · rfl
  · exact run_slots_frame sha gen img pub ts today _ log d hd

lemma create_daily_posts_count (sha : String → String)
    (gen : Nat → Nat → Option String) (img : String → Option String)
    (pub : String → Option String → Nat → Option String) (ts : Nat → String)
    (today : String) (log : Log)
    (h : ∀ d, count_posts_today d log ≤ DAILY_POST_LIMIT) :
    ∀ d, count_posts_today d (create_daily_posts sha gen img pub ts today log).log
      ≤ DAILY_POST_LIMIT := by
  intro d
  by_cases hd : d = today
  · subst hd
    simp only [create_daily_posts]
    split
    · exact h d
    · rename_i hguard
      have hlt : count_posts_today d log < DAILY_POST_LIMIT := by
        simp only [remaining_posts, not_le] at hguard
        omega
      have hlen := run_slots_today_len sha gen img pub ts d
        (List.range' (count_posts_today d log + 1)
          (DAILY_POST_LIMIT - count_posts_today d log)) log
      simp only [count_posts_today, List.length_range'] at *
      omega
  · rw [count_posts_today, create_daily_posts_frame sha gen img pub ts today log d hd]
    exact h d

lemma create_daily_posts_append (sha : String → String)
    (gen : Nat → Nat → Option String) (img : String → Option String)
    (pub : String → Option String → Nat → Option String) (ts : Nat → String)
    (today : String) (log : Log) (d : String) :
    ∃ tail, (create_daily_posts sha gen img pub ts today log).log d =
      log d ++ tail := by
  simp only [create_daily_posts]
  split
  · exact ⟨[], by simp⟩
  · exact run_slots_append sha gen img pub ts today _ log d

lemma run_cycles_count (sha : String → String) (cs : List CycleConfig) :
    ∀ log : Log, (∀ d, count_posts_today d log ≤ DAILY_POST_LIMIT) →
      ∀ d, count_posts_today d (run_cycles sha cs log) ≤ DAILY_POST_LIMIT := by
  induction cs with
  | nil => intro log h d; exact h d
  | cons c rest ih =>
    intro log h d
    simp only [run_cycles, List.foldl_cons]
    exact ih _ (create_daily_posts_count sha c.gen c.img c.pub c.ts c.today log h) d

lemma run_cycles_append (sha : String → String) (cs : List CycleConfig) :
    ∀ (log : Log) (d : String),
      ∃ tail, run_cycles sha cs log d = log d ++ tail := by
  induction cs with
  | nil => intro log d; exact ⟨[], by simp [run_cycles]⟩
  | cons c rest ih =>
    intro log d
    obtain ⟨t1, h1⟩ :=
      create_daily_posts_append sha c.gen c.img c.pub c.ts c.today log d
    obtain ⟨t2, h2⟩ :=
      ih (create_daily_posts sha c.gen c.img c.pub c.ts c.today log).log d
    refine ⟨t1 ++ t2, ?_⟩
    simp only [run_cycles, List.foldl_cons] at h2 ⊢
    rw [h2, h1, List.append_assoc]

/-! ### Claim theorems -/

/-- C1: the claim states that `already_posted(m)` returns true iff some
record stored under today's date carries a content hash equal to the digest
of `m`.  This is false on the code: `mark_posted` stores dicts
`{"hash": ..., ...}`, while `already_posted` tests `post_hash in
data[today]`, i.e. membership of the bare digest *string* among those
dicts, which never matches.  Here, after `mark_posted` records the message
`"hello"`, today's log holds exactly one record whose `hash` field equals
the digest of `"hello"`, yet `already_posted` returns `false`. -/
theorem already_posted_ignores_record_hashes :
    (mark_posted testSha "2026-10-12" "T" "hello" 1 emptyLog) "2026-10-12" =
      [LogItem.dict ⟨testSha "hello", 1, "T", "hello"⟩] ∧
    PostEntry.hash ⟨testSha "hello", 1, "T", "hello"⟩ = testSha "hello" ∧
    already_posted testSha "2026-10-12"
      (mark_posted testSha "2026-10-12" "T" "hello" 1 emptyLog) "hello" = false := by
  decide

/-- C4: the claim states that no two distinct records stored under one day
carry the same content hash.  False on the code: since `already_posted`
never matches stored records (see C1), a generator that returns the same
text for every slot makes one `create_daily_posts` run record three
entries with the identical hash under the same date; the first two records
are distinct (different `post_number`) yet share their `hash`. -/
theorem duplicate_hash_recorded_same_day :
    (create_daily_posts testSha testGenDup testImgNone testPubOK testTsA
        "2026-10-12" emptyLog).log "2026-10-12" =
      [LogItem.dict ⟨testSha "dup", 1, "A", "dup"⟩,
       LogItem.dict ⟨testSha "dup", 2, "A", "dup"⟩,
       LogItem.dict ⟨testSha "dup", 3, "A", "dup"⟩] ∧
    (⟨testSha "dup", 1, "A", "dup"⟩ : PostEntry) ≠
      ⟨testSha "dup", 2, "A", "dup"⟩ ∧
    PostEntry.hash ⟨testSha "dup", 1, "A", "dup"⟩ =
      PostEntry.hash ⟨testSha "dup", 2, "A", "dup"⟩ := by
  decide

/-- C3 (counterexample): the claim states that no topic repeats within a
rolling 2-day window except through an explicit exhaustion fallback.  The
code has no such window: the theme is `themes[(post_number - 1) % 8]`,
a function of the slot number alone.  Running the pipeline on the two
consecutive calendar days 2026-10-11 and 2026-10-12 yields two distinct
records (one per day, both slot 1) whose associated topics are equal,
while the day-1 window used only themes 1–3, so the catalog (8 themes) was
far from exhausted and no fallback was involved. -/
theorem topic_repeats_across_days :
    run_cycles testSha
        [⟨testGenDup, testImgNone, testPubOK, testTsA, "2026-10-11"⟩,
         ⟨testGenDup, testImgNone, testPubOK, testTsB, "2026-10-12"⟩]
        emptyLog "2026-10-11" =
      [LogItem.dict ⟨testSha "dup", 1, "A", "dup"⟩,
       LogItem.dict ⟨testSha "dup", 2, "A", "dup"⟩,
       LogItem.dict ⟨testSha "dup", 3, "A", "dup"⟩] ∧
    run_cycles testSha
        [⟨testGenDup, testImgNone, testPubOK, testTsA, "2026-10-11"⟩,
         ⟨testGenDup, testImgNone, testPubOK, testTsB, "2026-10-12"⟩]
        emptyLog "2026-10-12" =
      [LogItem.dict ⟨testSha "dup", 1, "B", "dup"⟩,
       LogItem.dict ⟨testSha "dup", 2, "B", "dup"⟩,
       LogItem.dict ⟨testSha "dup", 3, "B", "dup"⟩] ∧
    ("2026-10-11" : String) ≠ "2026-10-12" ∧
    (⟨testSha "dup", 1, "A", "dup"⟩ : PostEntry) ≠
      ⟨testSha "dup", 1, "B", "dup"⟩ ∧
    topic_of ⟨testSha "dup", 1, "A", "dup"⟩ =
      topic_of ⟨testSha "dup", 1, "B", "dup"⟩ ∧
    get_post_themes.getD 7 "" ∉
      [topic_of ⟨testSha "dup", 1, "A", "dup"⟩,
       topic_of ⟨testSha "dup", 2, "A", "dup"⟩,
       topic_of ⟨testSha "dup", 3, "A", "dup"⟩] := by
  decide

/-- C3 (amended): theme selection is the deterministic round-robin
`themes[(post_number - 1) % 8]`, consulting no post history.  Distinct
slot numbers in `1..8` (in particular the at most three slots of one day)
receive pairwise distinct themes, while the theme choice is 8-periodic in
the slot number, so the same slot number on different days always reuses
the same theme; there is no 2-day suppression window and no exhaustion
fallback. -/
theorem theme_selection_deterministic :
    (∀ a b : Fin 8, a ≠ b →
      selected_theme (a.val + 1) ≠ selected_theme (b.val + 1)) ∧
    (∀ n : Nat, selected_theme (n + 8) = selected_theme n) := by
  constructor
  · decide
  · intro n
    simp only [selected_theme]
    have h : ((n : Int) + 8 - 1) % 8 = ((n : Int) - 1) % 8 := by omega
    push_cast
    rw [h]

/-- Witness for C3's amended theorem at slots 1 and 2 and at the pair
(13, 5). -/
theorem theme_selection_deterministic_witness :
    selected_theme ((0 : Fin 8).val + 1) ≠ selected_theme ((1 : Fin 8).val + 1) ∧
    selected_theme (5 + 8) = selected_theme 5 :=
  ⟨theme_selection_deterministic.1 0 1 (by decide),
   theme_selection_deterministic.2 5⟩

/-- C8 (counterexample): the claim states the computed remaining-quota
value is `dailyLimit - count` floored at 0 and never negative.  The code
computes the plain difference `DAILY_POST_LIMIT - posts_today` with no
floor: with four records already stored for the day it computes `-1`. -/
theorem remaining_posts_negative :
    remaining_posts "2026-10-12" testLog4 = -1 ∧
    remaining_posts "2026-10-12" testLog4 ≠
      max 0 ((DAILY_POST_LIMIT : Int) -
        (count_posts_today "2026-10-12" testLog4 : Int)) ∧
    remaining_posts "2026-10-12" testLog4 < 0 := by
  decide

/-- C8 (amended): the engine computes `remaining_posts` as the plain
integer difference `DAILY_POST_LIMIT - posts_today` (possibly negative)
and returns before any content generation exactly when that value is
`≤ 0`; hence generation only ever proceeds when the value is positive, in
which case it coincides with the floored value of the claim. -/
theorem remaining_posts_guard (sha : String → String)
    (gen : Nat → Nat → Option String) (img : String → Option String)
    (pub : String → Option String → Nat → Option String) (ts : Nat → String)
    (today : String) (log : Log) :
    remaining_posts today log =
      (DAILY_POST_LIMIT : Int) - (count_posts_today today log : Int) ∧
    (remaining_posts today log ≤ 0 →
      create_daily_posts sha gen img pub ts today log = ⟨log, 0, 0, 0, 0⟩) ∧
    (0 < remaining_posts today log →
      remaining_posts today log =
        max 0 ((DAILY_POST_LIMIT : Int) - (count_posts_today today log : Int))) := by
  refine ⟨rfl, ?_, ?_⟩
  · intro h
    simp [create_daily_posts, h]
  · intro h
    rw [remaining_posts] at h ⊢
    omega

/-- Witness for C8's amended theorem: with four records already stored the
guard fires and the run changes nothing and calls nothing. -/
theorem remaining_posts_guard_witness :
    remaining_posts "2026-10-12" testLog4 =
      (DAILY_POST_LIMIT : Int) - (count_posts_today "2026-10-12" testLog4 : Int) ∧
    create_daily_posts testSha testGenDup testImgNone testPubOK testTsA
      "2026-10-12" testLog4 = ⟨testLog4, 0, 0, 0, 0⟩ :=
  ⟨(remaining_posts_guard testSha testGenDup testImgNone testPubOK testTsA
      "2026-10-12" testLog4).1,
   (remaining_posts_guard testSha testGenDup testImgNone testPubOK testTsA
      "2026-10-12" testLog4).2.1 (by decide)⟩

/-- C2: starting from any log in which no date holds more than
`DAILY_POST_LIMIT` (3) records, after any sequence of pipeline cycles no
date ever holds more than 3 records; moreover the limit is enforced before
generation: a cycle invoked when today already holds 3 records performs
zero `generate_text` and zero `post_to_facebook` calls and returns with
the log unchanged. -/
theorem daily_limit_never_exceeded (sha : String → String)
    (cs : List CycleConfig) (log : Log)
    (hinv : ∀ d, count_posts_today d log ≤ DAILY_POST_LIMIT) :
    (∀ d, count_posts_today d (run_cycles sha cs log) ≤ DAILY_POST_LIMIT) ∧
    (∀ (gen : Nat → Nat → Option String) (img : String → Option String)
       (pub : String → Option String → Nat → Option String)
       (ts : Nat → String) (today : String),
       count_posts_today today log = DAILY_POST_LIMIT →
       create_daily_posts sha gen img pub ts today log = ⟨log, 0, 0, 0, 0⟩) := by
  constructor
  · exact run_cycles_count sha cs log hinv
  · intro gen img pub ts today h
    simp [create_daily_posts, remaining_posts, h]

/-- Witness for C2 at a log already holding three records for today. -/
theorem daily_limit_never_exceeded_witness :
    (∀ d, count_posts_today d (run_cycles testSha
      [⟨testGenDup, testImgNone, testPubOK, testTsA, "2026-10-12"⟩]
      testLog3) ≤ DAILY_POST_LIMIT) ∧
    create_daily_posts testSha testGenDup testImgNone testPubOK testTsA
      "2026-10-12" testLog3 = ⟨testLog3, 0, 0, 0, 0⟩ := by
  have h := daily_limit_never_exceeded testSha
    [⟨testGenDup, testImgNone, testPubOK, testTsA, "2026-10-12"⟩] testLog3
    (by
      intro d
      by_cases hd : d = "2026-10-12" <;>
        simp [count_posts_today, testLog3, hd, DAILY_POST_LIMIT])
  exact ⟨h.1, h.2 testGenDup testImgNone testPubOK testTsA "2026-10-12" (by decide)⟩

/-- C5: within one post slot the content-generation retry loop calls
`generate_text` at most 5 times; if every one of the 5 attempts returns a
falsy result or one the duplicate check flags, the slot is skipped: the
log (hence the day's quota count) is unchanged, no record is appended, and
neither `generate_image` nor `post_to_facebook` is called for that slot. -/
theorem content_retry_bounded (sha : String → String)
    (gen : Nat → Nat → Option String) (img : String → Option String)
    (pub : String → Option String → Nat → Option String) (ts : Nat → String)
    (today : String) (log : Log) (post_num : Nat) :
    (process_post_slot sha gen img pub ts today log post_num).genCalls ≤ 5 ∧
    ((∀ a, a < 5 → pythonTruthy (gen post_num a) = false ∨
        already_posted sha today log ((gen post_num a).getD "") = true) →
      process_post_slot sha gen img pub ts today log post_num =
        ⟨log, 5, 0, 0, none⟩) := by
  constructor
  · exact process_post_slot_genCalls_le sha gen img pub ts today log post_num
  · intro h
    have hloop := retry_loop_all_rejected sha (gen post_num) today log 5 0
      (fun a _ ha => h a (by omega))
    simp [process_post_slot, hloop]

/-- Witness for C5: a generator that always fails exhausts the 5 attempts
and the slot is skipped with nothing changed. -/
theorem content_retry_bounded_witness :
    (process_post_slot testSha testGenNone testImgNone testPubOK testTsA
      "2026-10-12" emptyLog 1).genCalls ≤ 5 ∧
    process_post_slot testSha testGenNone testImgNone testPubOK testTsA
      "2026-10-12" emptyLog 1 = ⟨emptyLog, 5, 0, 0, none⟩ :=
  ⟨(content_retry_bounded testSha testGenNone testImgNone testPubOK testTsA
      "2026-10-12" emptyLog 1).1,
   (content_retry_bounded testSha testGenNone testImgNone testPubOK testTsA
      "2026-10-12" emptyLog 1).2 (fun _ _ => Or.inl rfl)⟩

/-- C6: when `post_to_facebook` yields no post identifier for the slot, no
record is appended: the log is returned unchanged, so the stored count for
the day — and hence the remaining quota — is exactly what it was before
the attempt. -/
theorem publish_failure_leaves_log_unchanged (sha : String → String)
    (gen : Nat → Nat → Option String) (img : String → Option String)
    (pub : String → Option String → Nat → Option String) (ts : Nat → String)
    (today : String) (log : Log) (post_num : Nat)
    (hpub : ∀ t im, pub t im post_num = none) :
    (process_post_slot sha gen img pub ts today log post_num).log = log ∧
    (process_post_slot sha gen img pub ts today log post_num).posted = none ∧
    count_posts_today today
        (process_post_slot sha gen img pub ts today log post_num).log =
      count_posts_today today log := by
  simp only [process_post_slot]
  split
  · exact ⟨rfl, rfl, rfl⟩
  · rename_i r1 text hloop
    rw [hpub text _]
    exact ⟨rfl, rfl, rfl⟩

/-- Witness for C6 with a publisher that always fails. -/
theorem publish_failure_leaves_log_unchanged_witness :
    (process_post_slot testSha testGenDup testImgNone testPubFail testTsA
      "2026-10-12" emptyLog 1).log = emptyLog ∧
    (process_post_slot testSha testGenDup testImgNone testPubFail testTsA
      "2026-10-12" emptyLog 1).posted = none ∧
    count_posts_today "2026-10-12"
        (process_post_slot testSha testGenDup testImgNone testPubFail testTsA
          "2026-10-12" emptyLog 1).log =
      count_posts_today "2026-10-12" emptyLog :=
  publish_failure_leaves_log_unchanged testSha testGenDup testImgNone
    testPubFail testTsA "2026-10-12" emptyLog 1 (fun _ _ => rfl)

/-- C9: when the generated image is falsy (generation failed, timed out or
returned nothing), the slot still proceeds: `post_to_facebook` is called
exactly once with the generated text and no image attached, and on publish
success the record step still happens (on publish failure only the slot is
abandoned). -/
theorem image_failure_text_only_publish (sha : String → String)
    (gen : Nat → Nat → Option String) (img : String → Option String)
    (pub : String → Option String → Nat → Option String) (ts : Nat → String)
    (today : String) (log : Log) (post_num : Nat) (t : String)
    (htext : (content_retry_loop sha (gen post_num) today log 0 5).1 = some t)
    (himg : pythonTruthy (img (t.take 120)) = false) :
    (process_post_slot sha gen img pub ts today log post_num).imgCalls = 1 ∧
    (process_post_slot sha gen img pub ts today log post_num).pubCalls = 1 ∧
    (pub t none post_num = none →
      (process_post_slot sha gen img pub ts today log post_num).posted = none ∧
      (process_post_slot sha gen img pub ts today log post_num).log = log) ∧
    (∀ pid, pub t none post_num = some pid →
      (process_post_slot sha gen img pub ts today log post_num).posted =
        some (mk_entry sha (ts post_num) t post_num) ∧
      (process_post_slot sha gen img pub ts today log post_num).log =
        mark_posted sha today (ts post_num) t post_num log) := by
  rcases hp : pub t none post_num with _ | pid <;>
    simp [process_post_slot, htext, himg, hp]

/-- Witness for C9: image generation fails, the text-only publish succeeds
and the record is written. -/
theorem image_failure_text_only_publish_witness :
    (process_post_slot testSha testGenDup testImgNone testPubOK testTsA
      "2026-10-12" emptyLog 1).imgCalls = 1 ∧
    (process_post_slot testSha testGenDup testImgNone testPubOK testTsA
      "2026-10-12" emptyLog 1).pubCalls = 1 ∧
    (testPubOK "dup" none 1 = none →
      (process_post_slot testSha testGenDup testImgNone testPubOK testTsA
        "2026-10-12" emptyLog 1).posted = none ∧
      (process_post_slot testSha testGenDup testImgNone testPubOK testTsA
        "2026-10-12" emptyLog 1).log = emptyLog) ∧
    (∀ pid, testPubOK "dup" none 1 = some pid →
      (process_post_slot testSha testGenDup testImgNone testPubOK testTsA
        "2026-10-12" emptyLog 1).posted =
        some (mk_entry testSha (testTsA 1) "dup" 1) ∧
      (process_post_slot testSha testGenDup testImgNone testPubOK testTsA
        "2026-10-12" emptyLog 1).log =
        mark_posted testSha "2026-10-12" (testTsA 1) "dup" 1 emptyLog) :=
  image_failure_text_only_publish testSha testGenDup testImgNone testPubOK
    testTsA "2026-10-12" emptyLog 1 "dup" (by decide) rfl

set_option maxRecDepth 4000 in
/-- C7 (counterexample): the claim states each record contains the
generated message, its hash, the chosen topic, the sequence number, the
external post id and the timestamp.  A record holds exactly four fields —
`hash`, `post_number`, `timestamp`, `preview` — so for a 101-character
message published with external id `FBID123`, the stored record's fields
include neither the full message (the preview is truncated to 100
characters plus `...`), nor the external post id, nor the slot's topic. -/
theorem record_omits_message_topic_postid :
    (process_post_slot testSha testGenLong testImgNone testPubOK testTsA
      "2026-10-12" emptyLog 1).posted =
      some (mk_entry testSha "A" testLongMsg 1) ∧
    (mk_entry testSha "A" testLongMsg 1).preview ≠ testLongMsg ∧
    (mk_entry testSha "A" testLongMsg 1).hash ≠ testLongMsg ∧
    (mk_entry testSha "A" testLongMsg 1).timestamp ≠ testLongMsg ∧
    (mk_entry testSha "A" testLongMsg 1).preview ≠ "FBID123" ∧
    (mk_entry testSha "A" testLongMsg 1).hash ≠ "FBID123" ∧
    (mk_entry testSha "A" testLongMsg 1).timestamp ≠ "FBID123" ∧
    (mk_entry testSha "A" testLongMsg 1).preview ≠ selected_theme 1 ∧
    (mk_entry testSha "A" testLongMsg 1).hash ≠ selected_theme 1 ∧
    (mk_entry testSha "A" testLongMsg 1).timestamp ≠ selected_theme 1 := by
  decide

/-- C7 (amended): a record is appended exactly when the slot's publish
succeeded, and then it is the single entry
`⟨hash(text), post_number, timestamp, preview(text)⟩` for the accepted
generated text, appended under today's key with all other dates untouched;
records already in the store are never mutated or deleted by any sequence
of pipeline cycles (the log only ever grows by appending). -/
theorem record_creation_on_publish (sha : String → String)
    (gen : Nat → Nat → Option String) (img : String → Option String)
    (pub : String → Option String → Nat → Option String) (ts : Nat → String)
    (today : String) (log : Log) (post_num : Nat) :
    ((process_post_slot sha gen img pub ts today log post_num).posted = none →
      (process_post_slot sha gen img pub ts today log post_num).log = log) ∧
    (∀ e, (process_post_slot sha gen img pub ts today log post_num).posted =
        some e →
      (process_post_slot sha gen img pub ts today log post_num).log today =
        log today ++ [LogItem.dict e] ∧
      (∀ d, d ≠ today →
        (process_post_slot sha gen img pub ts today log post_num).log d = log d) ∧
      (∃ t pid,
        (content_retry_loop sha (gen post_num) today log 0 5).1 = some t ∧
        pub t (if pythonTruthy (img (t.take 120)) then img (t.take 120)
          else none) post_num = some pid ∧
        e = mk_entry sha (ts post_num) t post_num)) ∧
    (∀ (cs : List CycleConfig) (d : String),
      ∃ tail, run_cycles sha cs log d = log d ++ tail) := by
  refine ⟨?_, ?_, fun cs d => run_cycles_append sha cs log d⟩
  · simp only [process_post_slot]
    split
    · intro _; rfl
    · split
      · intro h; exact absurd h (by simp)
      · intro _; rfl
  · intro e
    simp only [process_post_slot]
    split
    · intro h; exact absurd h (by simp)
    · split
      · rename_i r1 text hloop pr pid hpub
        intro h
        have he := Option.some.inj h
        subst he
        refine ⟨by simp [mark_posted], fun d hd => by simp [mark_posted, hd], ?_⟩
        exact ⟨_, _, hloop, hpub, rfl⟩
      · intro h; exact absurd h (by simp)

/-- Witness for C7's amended theorem: a successful publish appends exactly
the canonical record under today's key. -/
theorem record_creation_on_publish_witness :
    (process_post_slot testSha testGenDup testImgNone testPubOK testTsA
      "2026-10-12" emptyLog 1).log "2026-10-12" =
      emptyLog "2026-10-12" ++ [LogItem.dict (mk_entry testSha "A" "dup" 1)] :=
  ((record_creation_on_publish testSha testGenDup testImgNone testPubOK
      testTsA "2026-10-12" emptyLog 1).2.1
    (mk_entry testSha "A" "dup" 1) (by decide)).1

/-- C10: `mark_posted(message, post_number)` appends exactly one entry
under today's date key (the key is created when absent — the log is total
with default `[]`) and leaves the entry list of every other date key
unchanged. -/
theorem mark_posted_frame (sha : String → String) (today ts m : String)
    (n : Nat) (log : Log) (d : String) (hd : d ≠ today) :
    mark_posted sha today ts m n log today =
      log today ++ [LogItem.dict (mk_entry sha ts m n)] ∧
    mark_posted sha today ts m n log d = log d := by
  constructor <;> simp [mark_posted, hd]

/-- Witness for C10 at concrete dates. -/
theorem mark_posted_frame_witness :
    mark_posted testSha "2026-10-12" "T" "hello" 1 emptyLog "2026-10-12" =
      emptyLog "2026-10-12" ++ [LogItem.dict (mk_entry testSha "T" "hello" 1)] ∧
    mark_posted testSha "2026-10-12" "T" "hello" 1 emptyLog "2026-10-11" =
      emptyLog "2026-10-11" :=
  mark_posted_frame testSha "2026-10-12" "T" "hello" 1 emptyLog "2026-10-11"
    (by decide)

end FacebookBot
